import Mathlib

/-!
Verification development for the analogue-clock-webgl repository.

The second-hand physics core is specified by the `animationLoop` pseudocode in
the repository's technical specification (docs/tech-spec.md, §6); the frame
gate and lifecycle live in `src/analogue-clock.worker.js`
(`_animationLoop`, `destroy`), and the public constructor in
`src/analogue-clock.js`.  The definitions below are direct shallow embeddings
of those sources: JavaScript numbers are modelled as rationals, `Math.round`
as floor of `x + 1/2`, and the in-place mutations as functional updates of
explicit state records.
-/

namespace Clock

/-- A wall-clock sample, as produced by `new Date()`:
`getHours() / getMinutes() / getSeconds() / getMilliseconds()`. -/
structure ClockTime where
  hours : ℕ
  minutes : ℕ
  seconds : ℕ
  milliseconds : ℕ
deriving DecidableEq, Repr

/-- Range constraints of a real `Date` sample. -/
def ClockTime.Valid (t : ClockTime) : Prop :=
  t.hours < 24 ∧ t.minutes < 60 ∧ t.seconds < 60 ∧ t.milliseconds < 1000

instance (t : ClockTime) : Decidable t.Valid := by
  unfold ClockTime.Valid; infer_instance

/-- `config.secondHandPhysics` of the tech spec (§3.2). -/
structure PhysicsConfig where
  creepDurationMs : ℚ
  creepAngleDegrees : ℚ
  overshootDegrees : ℚ
  recoilDegrees : ℚ
deriving DecidableEq, Repr

/-- The documented defaults: 150 ms, 2°, 2°, −1.5°. -/
def defaultPhysics : PhysicsConfig :=
  { creepDurationMs := 150
    creepAngleDegrees := 2
    overshootDegrees := 2
    recoilDegrees := -3/2 }

/-- The sign conventions the data model attaches to a physics configuration:
overshoot is positive (beyond target), recoil negative (behind target), and the
creep is a forward drift, so its angle is non-negative. -/
def PhysicsConfig.Valid (c : PhysicsConfig) : Prop :=
  0 ≤ c.overshootDegrees ∧ c.recoilDegrees ≤ 0 ∧ 0 ≤ c.creepAngleDegrees

instance (c : PhysicsConfig) : Decidable c.Valid := by
  unfold PhysicsConfig.Valid; infer_instance

/-- `secondHandAnimationPhase` enum of the pseudocode. -/
inductive AnimationPhase where
  | SETTLED
  | CREEPING
  | OVERSHOOT
  | RECOIL
deriving DecidableEq, Repr

/-- The persistent per-instance state mutated by `animationLoop`
(`lastSystemSecond`, `targetSecondBaseAngle`, `secondHandAnimationPhase`,
`currentSecondHandVisualAngle`).  `lastSystemSecond` is an integer so the
−1 sentinel mentioned in the pseudocode comments is representable. -/
structure SecondHandState where
  lastSystemSecond : ℤ
  targetSecondBaseAngle : ℚ
  secondHandAnimationPhase : AnimationPhase
  currentSecondHandVisualAngle : ℚ
deriving DecidableEq, Repr

/-- The body of the `CASE 'CREEPING'` arm of the pseudocode switch.  The
`SETTLED` arm falls through into this code after flipping the phase to
`CREEPING`, so it is factored out exactly as that shared block. -/
def creepingCase (config : PhysicsConfig) (t : ClockTime) (s : SecondHandState) :
    SecondHandState :=
  let millisecondsUntilNextTick : ℚ := 1000 - (t.milliseconds : ℚ)
  if millisecondsUntilNextTick > config.creepDurationMs ∨ millisecondsUntilNextTick < 0 then
    { s with
      secondHandAnimationPhase := .SETTLED
      currentSecondHandVisualAngle := s.targetSecondBaseAngle }
  else
    let timeIntoCreepMs := config.creepDurationMs - millisecondsUntilNextTick
    let creepProgress := timeIntoCreepMs / config.creepDurationMs
    let clampedProgress := max 0 (min 1 creepProgress)
    let additionalCreepAngle := clampedProgress * config.creepAngleDegrees
    { s with
      currentSecondHandVisualAngle := s.targetSecondBaseAngle + additionalCreepAngle }

/-- The `SECOND HAND PHYSICS LOGIC` section of `animationLoop`: detect a tick
(`currentSeconds !== lastSystemSecond`) and otherwise dispatch on the phase.
The pseudocode's `DEFAULT` arm is unreachable here because the phase type is a
closed enumeration of the four listed values. -/
def advance (config : PhysicsConfig) (t : ClockTime) (s : SecondHandState) :
    SecondHandState :=
  if (t.seconds : ℤ) ≠ s.lastSystemSecond then
    let targetSecondBaseAngle : ℚ := (t.seconds : ℚ) / 60 * 360
    { lastSystemSecond := (t.seconds : ℤ)
      targetSecondBaseAngle := targetSecondBaseAngle
      secondHandAnimationPhase := .OVERSHOOT
      currentSecondHandVisualAngle := targetSecondBaseAngle + config.overshootDegrees }
  else
    match s.secondHandAnimationPhase with
    | .OVERSHOOT =>
        { s with
          secondHandAnimationPhase := .RECOIL
          currentSecondHandVisualAngle := s.targetSecondBaseAngle + config.recoilDegrees }
    | .RECOIL =>
        { s with
          secondHandAnimationPhase := .SETTLED
          currentSecondHandVisualAngle := s.targetSecondBaseAngle }
    | .SETTLED =>
        let millisecondsUntilNextTick : ℚ := 1000 - (t.milliseconds : ℚ)
        if millisecondsUntilNextTick ≤ config.creepDurationMs then
          creepingCase config t { s with secondHandAnimationPhase := .CREEPING }
        else
          { s with currentSecondHandVisualAngle := s.targetSecondBaseAngle }
    | .CREEPING => creepingCase config t s

/-- `hourAngle = ((currentHours % 12 + currentMinutes / 60) / 12) * 360`
from the pseudocode (note: no seconds contribution). -/
def hourAngle (t : ClockTime) : ℚ :=
  (((t.hours % 12 : ℕ) : ℚ) + (t.minutes : ℚ) / 60) / 12 * 360

/-- `minuteAngle = ((currentMinutes + currentSeconds / 60) / 60) * 360`
from the pseudocode. -/
def minuteAngle (t : ClockTime) : ℚ :=
  ((t.minutes : ℚ) + (t.seconds : ℚ) / 60) / 60 * 360

/-- Hour angle as the natural-language specification words it:
`((hours % 12) + minutes/60 + seconds/3600) * 30`.  Stated for comparison with
`hourAngle`, the definition taken from the source. -/
def specHourAngle (t : ClockTime) : ℚ :=
  (((t.hours % 12 : ℕ) : ℚ) + (t.minutes : ℚ) / 60 + (t.seconds : ℚ) / 3600) * 30

/-- The persistent state set up by `initializeClock`:
`lastSystemSecond = (seconds + 59) % 60` (forcing a tick on the first frame),
phase `SETTLED`, and both angles at the current second's base angle. -/
def initialState (t0 : ClockTime) : SecondHandState :=
  { lastSystemSecond := (((t0.seconds + 59) % 60 : ℕ) : ℤ)
    targetSecondBaseAngle := (t0.seconds : ℚ) / 60 * 360
    secondHandAnimationPhase := .SETTLED
    currentSecondHandVisualAngle := (t0.seconds : ℚ) / 60 * 360 }

/-- The phase-machine state after starting at `t0` and processing the accepted
frames that sampled the times `ts`, in order. -/
def runFrom (config : PhysicsConfig) (t0 : ClockTime) (ts : List ClockTime) :
    SecondHandState :=
  ts.foldl (fun s t => advance config t s) (initialState t0)

/-! ### The worker's renderer: frame gate and lifecycle

Embeds `AnalogueClockRenderer` of `src/analogue-clock.worker.js`: the fields
touched by `_animationLoop` and `destroy`, with the scene/renderer objects
abstracted to a `hasRenderer` flag (they are set in `init` and nulled in
`destroy`). -/

structure RendererState where
  isRunning : Bool
  animationFrameId : Option ℕ
  lastTimestamp : ℚ
  lastRateHz : ℤ
  maxRateHz : ℤ
  hasRenderer : Bool
deriving DecidableEq, Repr

/-- Field values assigned in the constructor. -/
def initialRenderer : RendererState :=
  { isRunning := false
    animationFrameId := none
    lastTimestamp := -1
    lastRateHz := 50
    maxRateHz := 50
    hasRenderer := false }

/-- The renderer right after `init` completed: running, renderer created,
first animation frame requested, gate timestamp still at the −1 sentinel. -/
def startedRenderer (frameId : ℕ) : RendererState :=
  { initialRenderer with
    isRunning := true
    hasRenderer := true
    animationFrameId := some frameId }

/-- JavaScript `Math.round` on a finite value: round half toward +∞. -/
def jsRound (x : ℚ) : ℤ := ⌊x + 1/2⌋

/-- Everything one `_animationLoop(timestamp)` call produces: the updated
state, whether the throttle accepted the frame, whether `renderer.render` ran,
and whether `requestAnimationFrame` was called again. -/
structure StepResult where
  state : RendererState
  accepted : Bool
  rendered : Bool
  requested : Bool
deriving DecidableEq, Repr

/-- `_animationLoop(timestamp)`.  If the instance is not running it returns at
once, touching nothing and requesting no further frame.  Otherwise
`delta = timestamp - lastTimestamp`, `actualRateHz = Math.round(1000 / delta)`,
and the frame is accepted iff `actualRateHz < maxRateHz`; `delta = 0` is the
JavaScript division `1000 / 0 = Infinity`, which fails the comparison.  On
acceptance `lastRateHz` and `lastTimestamp` are updated and the scene is
rendered.  In all running cases the next frame is requested. -/
def animationLoop (newFrameId : ℕ) (timestamp : ℚ) (s : RendererState) :
    StepResult :=
  if s.isRunning = false then
    { state := s, accepted := false, rendered := false, requested := false }
  else
    let delta := timestamp - s.lastTimestamp
    let accepted : Bool :=
      if delta = 0 then false else decide (jsRound (1000 / delta) < s.maxRateHz)
    let s' :=
      if accepted then
        { s with lastRateHz := jsRound (1000 / delta), lastTimestamp := timestamp }
      else s
    { state := { s' with animationFrameId := some newFrameId }
      accepted := accepted
      rendered := accepted && s.hasRenderer
      requested := true }

/-- Result of `destroy()`: the updated state and whether
`cancelAnimationFrame` was invoked on the pending handle. -/
structure DestroyResult where
  state : RendererState
  cancelled : Bool
deriving DecidableEq, Repr

/-- `destroy()`.  A no-op when not running; otherwise clears `isRunning`,
cancels the pending frame when `animationFrameId` is truthy (a handle other
than `0`), and nulls out the scene/renderer objects. -/
def destroy (s : RendererState) : DestroyResult :=
  if s.isRunning = false then { state := s, cancelled := false }
  else
    { state := { s with isRunning := false, hasRenderer := false }
      cancelled :=
        match s.animationFrameId with
        | some id => id != 0
        | none => false }

/-! ### The public `AnalogueClock` constructor (`src/analogue-clock.js`) -/

/-- An exception raised inside `_init`, abstracted to whether its `message`
contains the substring `"Worker"` (the property the catch block tests with
`error.message?.includes("Worker")`).  The explicit
`throw new Error("Worker not supported")` is the case
`mentionsWorker = true`. -/
structure InitError where
  mentionsWorker : Bool
deriving DecidableEq, Repr

/-- Which of the two error paragraphs the catch block writes into the target
element. -/
inductive ErrorDisplay where
  | workerNotSupported
  | genericInit
deriving DecidableEq, Repr

/-- Observable outcome of a constructor call that did not throw. -/
structure CtorOutcome where
  destroyCalled : Bool
  errorShown : Option ErrorDisplay
deriving DecidableEq, Repr

/-- The `AnalogueClock` constructor.  Throws (`Except.error`) exactly when
`targetElement` is not an `HTMLElement`; otherwise runs `_init` (abstracted as
its result, `initResult`) inside a try/catch that, on failure, calls
`this.destroy()` and writes an error paragraph into the target element. -/
def analogueClockCtor (isHTMLElement : Bool) (initResult : Except InitError Unit) :
    Except Unit CtorOutcome :=
  if isHTMLElement = false then Except.error ()
  else
    match initResult with
    | .ok _ => .ok { destroyCalled := false, errorShown := none }
    | .error e =>
        .ok { destroyCalled := true
              errorShown :=
                some (if e.mentionsWorker then .workerNotSupported else .genericInit) }

/-! ### Branch lemmas for `advance` -/

theorem advance_tick (config : PhysicsConfig) (t : ClockTime) (s : SecondHandState)
    (htick : (t.seconds : ℤ) ≠ s.lastSystemSecond) :
    advance config t s =
      { lastSystemSecond := (t.seconds : ℤ)
        targetSecondBaseAngle := (t.seconds : ℚ) / 60 * 360
        secondHandAnimationPhase := .OVERSHOOT
        currentSecondHandVisualAngle := (t.seconds : ℚ) / 60 * 360 + config.overshootDegrees } := by
  unfold advance
  rw [if_pos htick]

theorem advance_overshoot (config : PhysicsConfig) (t : ClockTime) (s : SecondHandState)
    (hnt : (t.seconds : ℤ) = s.lastSystemSecond)
    (hp : s.secondHandAnimationPhase = .OVERSHOOT) :
    advance config t s =
      { s with
        secondHandAnimationPhase := .RECOIL
        currentSecondHandVisualAngle := s.targetSecondBaseAngle + config.recoilDegrees } := by
  unfold advance
  rw [if_neg (not_not_intro hnt), hp]

theorem advance_recoil (config : PhysicsConfig) (t : ClockTime) (s : SecondHandState)
    (hnt : (t.seconds : ℤ) = s.lastSystemSecond)
    (hp : s.secondHandAnimationPhase = .RECOIL) :
    advance config t s =
      { s with
        secondHandAnimationPhase := .SETTLED
        currentSecondHandVisualAngle := s.targetSecondBaseAngle } := by
  unfold advance
  rw [if_neg (not_not_intro hnt), hp]

theorem advance_settled_far (config : PhysicsConfig) (t : ClockTime) (s : SecondHandState)
    (hnt : (t.seconds : ℤ) = s.lastSystemSecond)
    (hp : s.secondHandAnimationPhase = .SETTLED)
    (hfar : config.creepDurationMs < 1000 - (t.milliseconds : ℚ)) :
    advance config t s =
      { s with currentSecondHandVisualAngle := s.targetSecondBaseAngle } := by
  unfold advance
  rw [if_neg (not_not_intro hnt), hp]
  rw [if_neg (not_le_of_lt hfar)]

theorem advance_settled_near (config : PhysicsConfig) (t : ClockTime) (s : SecondHandState)
    (hnt : (t.seconds : ℤ) = s.lastSystemSecond)
    (hp : s.secondHandAnimationPhase = .SETTLED)
    (hnear : 1000 - (t.milliseconds : ℚ) ≤ config.creepDurationMs)
    (hpos : 0 ≤ 1000 - (t.milliseconds : ℚ)) :
    advance config t s =
      { s with
        secondHandAnimationPhase := .CREEPING
        currentSecondHandVisualAngle := s.targetSecondBaseAngle +
          max 0 (min 1 ((config.creepDurationMs - (1000 - (t.milliseconds : ℚ))) /
            config.creepDurationMs)) * config.creepAngleDegrees } := by
  have hcond : ¬(1000 - (t.milliseconds : ℚ) > config.creepDurationMs ∨
      1000 - (t.milliseconds : ℚ) < 0) := by
    push_neg
    exact ⟨hnear, hpos⟩
  unfold advance
  rw [if_neg (not_not_intro hnt), hp]
  dsimp only
  rw [if_pos hnear]
  unfold creepingCase
  dsimp only
  rw [if_neg hcond]

theorem advance_creeping_stay (config : PhysicsConfig) (t : ClockTime) (s : SecondHandState)
    (hnt : (t.seconds : ℤ) = s.lastSystemSecond)
    (hp : s.secondHandAnimationPhase = .CREEPING)
    (hnear : 1000 - (t.milliseconds : ℚ) ≤ config.creepDurationMs)
    (hpos : 0 ≤ 1000 - (t.milliseconds : ℚ)) :
    advance config t s =
      { s with
        currentSecondHandVisualAngle := s.targetSecondBaseAngle +
          max 0 (min 1 ((config.creepDurationMs - (1000 - (t.milliseconds : ℚ))) /
            config.creepDurationMs)) * config.creepAngleDegrees } := by
  have hcond : ¬(1000 - (t.milliseconds : ℚ) > config.creepDurationMs ∨
      1000 - (t.milliseconds : ℚ) < 0) := by
    push_neg
    exact ⟨hnear, hpos⟩
  unfold advance
  rw [if_neg (not_not_intro hnt), hp]
  dsimp only
  unfold creepingCase
  dsimp only
  rw [if_neg hcond, hp]

theorem advance_creeping_revert (config : PhysicsConfig) (t : ClockTime) (s : SecondHandState)
    (hnt : (t.seconds : ℤ) = s.lastSystemSecond)
    (hp : s.secondHandAnimationPhase = .CREEPING)
    (hout : 1000 - (t.milliseconds : ℚ) > config.creepDurationMs ∨
      1000 - (t.milliseconds : ℚ) < 0) :
    advance config t s =
      { s with
        secondHandAnimationPhase := .SETTLED
        currentSecondHandVisualAngle := s.targetSecondBaseAngle } := by
  unfold advance
  rw [if_neg (not_not_intro hnt), hp]
  dsimp only
  unfold creepingCase
  dsimp only
  rw [if_pos hout]

theorem advance_settled_enter_revert (config : PhysicsConfig) (t : ClockTime)
    (s : SecondHandState)
    (hnt : (t.seconds : ℤ) = s.lastSystemSecond)
    (hp : s.secondHandAnimationPhase = .SETTLED)
    (hnear : 1000 - (t.milliseconds : ℚ) ≤ config.creepDurationMs)
    (hneg : 1000 - (t.milliseconds : ℚ) < 0) :
    advance config t s =
      { s with
        secondHandAnimationPhase := .SETTLED
        currentSecondHandVisualAngle := s.targetSecondBaseAngle } := by
  unfold advance
  rw [if_neg (not_not_intro hnt), hp]
  dsimp only
  rw [if_pos hnear]
  unfold creepingCase
  dsimp only
  rw [if_pos (Or.inr hneg)]

/-- Whatever branch runs, `lastSystemSecond` ends up equal to the sampled
second: a tick overwrites it, and every no-tick branch both requires and
preserves the equality. -/
theorem advance_lastSystemSecond (config : PhysicsConfig) (t : ClockTime)
    (s : SecondHandState) :
    (advance config t s).lastSystemSecond = (t.seconds : ℤ) := by
  by_cases htick : (t.seconds : ℤ) ≠ s.lastSystemSecond
  · rw [advance_tick config t s htick]
  · push_neg at htick
    unfold advance
    rw [if_neg (not_not_intro htick)]
    cases hp : s.secondHandAnimationPhase
    · -- SETTLED
      dsimp only
      split
      · unfold creepingCase
        dsimp only
        split <;> simp [htick]
      · simp [htick]
    · -- CREEPING
      dsimp only
      unfold creepingCase
      dsimp only
      split <;> simp [htick]
    · -- OVERSHOOT
      simp [htick]
    · -- RECOIL
      simp [htick]

/-- If an `advance` step ends in phase `SETTLED`, the visual angle it emitted
is exactly the base angle. -/
theorem advance_settled_shape (config : PhysicsConfig) (t : ClockTime)
    (s : SecondHandState)
    (hs : (advance config t s).secondHandAnimationPhase = .SETTLED) :
    (advance config t s).currentSecondHandVisualAngle =
      (advance config t s).targetSecondBaseAngle := by
  by_cases htick : (t.seconds : ℤ) ≠ s.lastSystemSecond
  · rw [advance_tick config t s htick] at hs
    simp at hs
  · push_neg at htick
    cases hp : s.secondHandAnimationPhase
    · -- SETTLED
      by_cases hw : 1000 - (t.milliseconds : ℚ) ≤ config.creepDurationMs
      · by_cases hpos : 0 ≤ 1000 - (t.milliseconds : ℚ)
        · rw [advance_settled_near config t s htick hp hw hpos] at hs
          simp at hs
        · rw [advance_settled_enter_revert config t s htick hp hw (not_le.mp hpos)]
      · rw [advance_settled_far config t s htick hp (not_le.mp hw)]
    · -- CREEPING
      by_cases hw : 1000 - (t.milliseconds : ℚ) ≤ config.creepDurationMs
      · by_cases hpos : 0 ≤ 1000 - (t.milliseconds : ℚ)
        · rw [advance_creeping_stay config t s htick hp hw hpos] at hs
          rw [hp] at hs
          simp at hs
        · rw [advance_creeping_revert config t s htick hp (Or.inr (not_le.mp hpos))]
      · rw [advance_creeping_revert config t s htick hp (Or.inl (not_le.mp hw))]
    · -- OVERSHOOT
      rw [advance_overshoot config t s htick hp] at hs
      simp at hs
    · -- RECOIL
      rw [advance_recoil config t s htick hp]

/-- If an `advance` step ends in phase `CREEPING`, the frame is inside the
creep window and the visual angle it emitted is the base angle plus the
clamped creep offset for this frame's milliseconds. -/
theorem advance_creeping_shape (config : PhysicsConfig) (t : ClockTime)
    (s : SecondHandState)
    (hpos : 0 ≤ 1000 - (t.milliseconds : ℚ))
    (hc : (advance config t s).secondHandAnimationPhase = .CREEPING) :
    1000 - (t.milliseconds : ℚ) ≤ config.creepDurationMs ∧
    (advance config t s).currentSecondHandVisualAngle =
      (advance config t s).targetSecondBaseAngle +
        max 0 (min 1 ((config.creepDurationMs - (1000 - (t.milliseconds : ℚ))) /
          config.creepDurationMs)) * config.creepAngleDegrees := by
  by_cases htick : (t.seconds : ℤ) ≠ s.lastSystemSecond
  · rw [advance_tick config t s htick] at hc
    simp at hc
  · push_neg at htick
    cases hp : s.secondHandAnimationPhase
    · -- SETTLED
      by_cases hw : 1000 - (t.milliseconds : ℚ) ≤ config.creepDurationMs
      · rw [advance_settled_near config t s htick hp hw hpos]
        exact ⟨hw, by simp⟩
      · rw [advance_settled_far config t s htick hp (not_le.mp hw)] at hc
        rw [hp] at hc
        simp at hc
    · -- CREEPING
      by_cases hw : 1000 - (t.milliseconds : ℚ) ≤ config.creepDurationMs
      · rw [advance_creeping_stay config t s htick hp hw hpos]
        exact ⟨hw, by simp⟩
      · rw [advance_creeping_revert config t s htick hp (Or.inl (not_le.mp hw))] at hc
        simp at hc
    · -- OVERSHOOT
      rw [advance_overshoot config t s htick hp] at hc
      simp at hc
    · -- RECOIL
      rw [advance_recoil config t s htick hp] at hc
      simp at hc

/-! ### Claim theorems: the second-hand phase machine -/

/-- C1: on the accepted frame where a tick to second S is detected, the phase
machine enters `OVERSHOOT` with visual angle `(S/60)*360 + overshootDegrees`;
on the next accepted frame with no new tick it enters `RECOIL` at
`(S/60)*360 + recoilDegrees`; on the accepted frame after that, with no new
tick, it enters `SETTLED` at `(S/60)*360` exactly. -/
theorem C1_tick_overshoot_recoil_settle (config : PhysicsConfig)
    (s : SecondHandState) (t t2 t3 : ClockTime)
    (htick : (t.seconds : ℤ) ≠ s.lastSystemSecond)
    (h2 : t2.seconds = t.seconds) (h3 : t3.seconds = t.seconds) :
    ((advance config t s).secondHandAnimationPhase = .OVERSHOOT ∧
      (advance config t s).currentSecondHandVisualAngle =
        (t.seconds : ℚ) / 60 * 360 + config.overshootDegrees) ∧
    ((advance config t2 (advance config t s)).secondHandAnimationPhase = .RECOIL ∧
      (advance config t2 (advance config t s)).currentSecondHandVisualAngle =
        (t.seconds : ℚ) / 60 * 360 + config.recoilDegrees) ∧
    ((advance config t3 (advance config t2 (advance config t s))).secondHandAnimationPhase =
        .SETTLED ∧
      (advance config t3 (advance config t2 (advance config t s))).currentSecondHandVisualAngle =
        (t.seconds : ℚ) / 60 * 360) := by
  have e1 : advance config t s =
      ⟨(t.seconds : ℤ), (t.seconds : ℚ) / 60 * 360, .OVERSHOOT,
        (t.seconds : ℚ) / 60 * 360 + config.overshootDegrees⟩ :=
    advance_tick config t s htick
  have e2 : advance config t2 (advance config t s) =
      ⟨(t.seconds : ℤ), (t.seconds : ℚ) / 60 * 360, .RECOIL,
        (t.seconds : ℚ) / 60 * 360 + config.recoilDegrees⟩ := by
    rw [e1]
    exact advance_overshoot config t2 _ (by simp [h2]) rfl
  have e3 : advance config t3 (advance config t2 (advance config t s)) =
      ⟨(t.seconds : ℤ), (t.seconds : ℚ) / 60 * 360, .SETTLED,
        (t.seconds : ℚ) / 60 * 360⟩ := by
    rw [e2]
    exact advance_recoil config t3 _ (by simp [h3]) rfl
  exact ⟨⟨by rw [e1], by rw [e1]⟩, ⟨by rw [e2], by rw [e2]⟩, by rw [e3], by rw [e3]⟩

/-- Witness for C1: ticking to second 15 (base 90°) with the default physics
gives 92° (OVERSHOOT), then 88.5° (RECOIL), then 90° (SETTLED). -/
theorem C1_witness :
    (advance defaultPhysics ⟨10, 10, 15, 0⟩ ⟨-1, 0, .SETTLED, 0⟩).currentSecondHandVisualAngle = 92 ∧
    (advance defaultPhysics ⟨10, 10, 15, 300⟩
      (advance defaultPhysics ⟨10, 10, 15, 0⟩ ⟨-1, 0, .SETTLED, 0⟩)).currentSecondHandVisualAngle =
      177 / 2 ∧
    (advance defaultPhysics ⟨10, 10, 15, 320⟩
      (advance defaultPhysics ⟨10, 10, 15, 300⟩
        (advance defaultPhysics ⟨10, 10, 15, 0⟩
          ⟨-1, 0, .SETTLED, 0⟩))).currentSecondHandVisualAngle = 90 := by
  have h := C1_tick_overshoot_recoil_settle defaultPhysics ⟨-1, 0, .SETTLED, 0⟩
    ⟨10, 10, 15, 0⟩ ⟨10, 10, 15, 300⟩ ⟨10, 10, 15, 320⟩ (by decide) rfl rfl
  exact ⟨h.1.2.trans (by norm_num [defaultPhysics]),
    h.2.1.2.trans (by norm_num [defaultPhysics]),
    h.2.2.2.trans (by norm_num)⟩

/-- C6 counterexample: a machine in `OVERSHOOT` for second 5 whose next
accepted frame samples second 6 detects a new tick and re-enters `OVERSHOOT`,
not `RECOIL`, so `OVERSHOOT` is not always immediately followed by `RECOIL`
on the next accepted frame. -/
theorem C6_counterexample :
    (⟨5, 30, .OVERSHOOT, 32⟩ : SecondHandState).secondHandAnimationPhase = .OVERSHOOT ∧
    (advance defaultPhysics ⟨12, 0, 6, 100⟩
      ⟨5, 30, .OVERSHOOT, 32⟩).secondHandAnimationPhase ≠ .RECOIL ∧
    (advance defaultPhysics ⟨12, 0, 6, 100⟩
      ⟨5, 30, .OVERSHOOT, 32⟩).secondHandAnimationPhase = .OVERSHOOT := by
  decide

/-- C6 amended: provided the next accepted frames sample the same second as
the machine's `lastSystemSecond` (no new tick), a state in `OVERSHOOT` moves
to `RECOIL` on the next accepted frame and to `SETTLED` on the one after
that — frames rejected by the gate in between touch no state and so cannot
affect this. -/
theorem C6_overshoot_recoil_settle_order (config : PhysicsConfig)
    (s : SecondHandState) (t t' : ClockTime)
    (hp : s.secondHandAnimationPhase = .OVERSHOOT)
    (h1 : (t.seconds : ℤ) = s.lastSystemSecond)
    (h2 : (t'.seconds : ℤ) = s.lastSystemSecond) :
    (advance config t s).secondHandAnimationPhase = .RECOIL ∧
    (advance config t' (advance config t s)).secondHandAnimationPhase = .SETTLED := by
  have e1 := advance_overshoot config t s h1 hp
  have e2 := advance_recoil config t' (advance config t s)
    (by rw [e1]; exact h2) (by rw [e1])
  exact ⟨by rw [e1], by rw [e2]⟩

/-- Witness for C6's amended theorem at second 5. -/
theorem C6_witness :
    (advance defaultPhysics ⟨12, 0, 5, 200⟩
      ⟨5, 30, .OVERSHOOT, 32⟩).secondHandAnimationPhase = .RECOIL ∧
    (advance defaultPhysics ⟨12, 0, 5, 220⟩
      (advance defaultPhysics ⟨12, 0, 5, 200⟩
        ⟨5, 30, .OVERSHOOT, 32⟩)).secondHandAnimationPhase = .SETTLED :=
  C6_overshoot_recoil_settle_order defaultPhysics ⟨5, 30, .OVERSHOOT, 32⟩
    ⟨12, 0, 5, 200⟩ ⟨12, 0, 5, 220⟩ rfl rfl rfl

/-- C7 counterexample: at 00:00:30 the source computes an hour angle of 0°,
while the spec's formula `((hours % 12) + minutes/60 + seconds/3600) * 30`
gives 0.25°: the source's hour angle has no seconds term. -/
theorem C7_counterexample :
    hourAngle ⟨0, 0, 30, 0⟩ = 0 ∧
    specHourAngle ⟨0, 0, 30, 0⟩ = 1 / 4 ∧
    hourAngle ⟨0, 0, 30, 0⟩ ≠ specHourAngle ⟨0, 0, 30, 0⟩ := by
  refine ⟨by norm_num [hourAngle], by norm_num [specHourAngle],
    by norm_num [hourAngle, specHourAngle]⟩

/-- C7 amended: for every sampled time the continuous-hand calculator returns
`hourAngleDegrees = ((hours % 12) + minutes/60) * 30` — with no seconds
contribution — and `minuteAngleDegrees = (minutes + seconds/60) * 6`. -/
theorem C7_hour_minute_angles (t : ClockTime) :
    hourAngle t = (((t.hours % 12 : ℕ) : ℚ) + (t.minutes : ℚ) / 60) * 30 ∧
    minuteAngle t = ((t.minutes : ℚ) + (t.seconds : ℚ) / 60) * 6 := by
  unfold hourAngle minuteAngle
  constructor <;> ring

/-- C8 counterexample: with the sentinel state and time 00:00:00.500, the
first `advance` detects a tick and enters `OVERSHOOT`; calling `advance` again
with the identical `ClockTime` advances the machine to `RECOIL` and changes
the visual angle, so the second call does double-advance the phase. -/
theorem C8_counterexample :
    (advance defaultPhysics ⟨0, 0, 0, 500⟩
      ⟨-1, 0, .SETTLED, 0⟩).secondHandAnimationPhase = .OVERSHOOT ∧
    (advance defaultPhysics ⟨0, 0, 0, 500⟩
      (advance defaultPhysics ⟨0, 0, 0, 500⟩
        ⟨-1, 0, .SETTLED, 0⟩)).secondHandAnimationPhase = .RECOIL ∧
    (advance defaultPhysics ⟨0, 0, 0, 500⟩
        (advance defaultPhysics ⟨0, 0, 0, 500⟩
          ⟨-1, 0, .SETTLED, 0⟩)).secondHandAnimationPhase ≠
      (advance defaultPhysics ⟨0, 0, 0, 500⟩
        ⟨-1, 0, .SETTLED, 0⟩).secondHandAnimationPhase := by
  decide

/-- C8 amended: a second `advance` with the identical `ClockTime` is a no-op
exactly in the stable situations — when the first call leaves the machine
`CREEPING`, or leaves it `SETTLED` strictly before the creep window opens.
(When the first call ends in `OVERSHOOT` or `RECOIL`, or ends `SETTLED`
inside the creep window, a second identical call advances the machine, as the
counterexample shows.) -/
theorem C8_advance_idempotent_when_stable (config : PhysicsConfig)
    (t : ClockTime) (s : SecondHandState)
    (hms : (t.milliseconds : ℚ) ≤ 1000)
    (h : (advance config t s).secondHandAnimationPhase = .CREEPING ∨
      ((advance config t s).secondHandAnimationPhase = .SETTLED ∧
        config.creepDurationMs < 1000 - (t.milliseconds : ℚ))) :
    advance config t (advance config t s) = advance config t s := by
  have hnt : (t.seconds : ℤ) = (advance config t s).lastSystemSecond :=
    (advance_lastSystemSecond config t s).symm
  have hpos : 0 ≤ 1000 - (t.milliseconds : ℚ) := by linarith
  rcases h with hc | ⟨hs, hfar⟩
  · obtain ⟨hw, hshape⟩ := advance_creeping_shape config t s hpos hc
    rw [advance_creeping_stay config t (advance config t s) hnt hc hw hpos]
    rw [← hshape]
  · have hshape := advance_settled_shape config t s hs
    rw [advance_settled_far config t (advance config t s) hnt hs hfar]
    nth_rewrite 2 [← hshape]
    rfl

/-- Witness for C8's amended theorem: a settled state well before the creep
window is a fixed point of a repeated identical call. -/
theorem C8_witness :
    advance defaultPhysics ⟨0, 0, 7, 100⟩
      (advance defaultPhysics ⟨0, 0, 7, 100⟩ ⟨7, 42, .SETTLED, 42⟩) =
    advance defaultPhysics ⟨0, 0, 7, 100⟩ ⟨7, 42, .SETTLED, 42⟩ :=
  C8_advance_idempotent_when_stable defaultPhysics ⟨0, 0, 7, 100⟩
    ⟨7, 42, .SETTLED, 42⟩ (by norm_num)
    (Or.inr ⟨by rw [advance_settled_far defaultPhysics ⟨0, 0, 7, 100⟩
        ⟨7, 42, .SETTLED, 42⟩ (by decide) rfl (by norm_num [defaultPhysics])],
      by norm_num [defaultPhysics]⟩)

/-- C4: an accepted no-tick frame that finds the machine `SETTLED` with
`0 < msUntilTick ≤ creepDurationMs` transitions to `CREEPING` and, in the same
invocation, emits the first creep sample
`targetBaseAngle + clamp((creepDurationMs − msUntilTick)/creepDurationMs, 0, 1) * creepAngleDegrees`;
with the defaults, at `msUntilTick = 75` the emitted angle is exactly the base
angle plus 1 degree. -/
theorem C4_settled_enters_creeping (config : PhysicsConfig) (t : ClockTime)
    (s : SecondHandState)
    (hp : s.secondHandAnimationPhase = .SETTLED)
    (hnt : (t.seconds : ℤ) = s.lastSystemSecond)
    (hwin : 1000 - (t.milliseconds : ℚ) ≤ config.creepDurationMs)
    (hpos : 0 < 1000 - (t.milliseconds : ℚ)) :
    (advance config t s).secondHandAnimationPhase = .CREEPING ∧
    (advance config t s).currentSecondHandVisualAngle =
      s.targetSecondBaseAngle +
        max 0 (min 1 ((config.creepDurationMs - (1000 - (t.milliseconds : ℚ))) /
          config.creepDurationMs)) * config.creepAngleDegrees ∧
    (config = defaultPhysics → 1000 - (t.milliseconds : ℚ) = 75 →
      (advance config t s).currentSecondHandVisualAngle = s.targetSecondBaseAngle + 1) := by
  have e := advance_settled_near config t s hnt hp hwin (le_of_lt hpos)
  refine ⟨by rw [e], by rw [e], ?_⟩
  rintro rfl h75
  rw [e]
  show s.targetSecondBaseAngle + _ = _
  rw [h75]
  norm_num [defaultPhysics]

/-- Witness for C4 at second 30 (base 180°), milliseconds 925
(`msUntilTick = 75`): the machine creeps and emits 181°. -/
theorem C4_witness :
    (advance defaultPhysics ⟨0, 0, 30, 925⟩
      ⟨30, 180, .SETTLED, 180⟩).secondHandAnimationPhase = .CREEPING ∧
    (advance defaultPhysics ⟨0, 0, 30, 925⟩
      ⟨30, 180, .SETTLED, 180⟩).currentSecondHandVisualAngle = 181 := by
  have h := C4_settled_enters_creeping defaultPhysics ⟨0, 0, 30, 925⟩
    ⟨30, 180, .SETTLED, 180⟩ rfl rfl (by norm_num [defaultPhysics]) (by norm_num)
  exact ⟨h.1, (h.2.2 rfl (by norm_num)).trans (by norm_num)⟩

/-- The band the specification's invariant prescribes for the visual angle:
within `targetBaseAngle + [min(recoilDegrees, 0), max(overshootDegrees, creepAngleDegrees)]`. -/
def InBand (config : PhysicsConfig) (s : SecondHandState) : Prop :=
  s.targetSecondBaseAngle + min config.recoilDegrees 0 ≤ s.currentSecondHandVisualAngle ∧
  s.currentSecondHandVisualAngle ≤
    s.targetSecondBaseAngle + max config.overshootDegrees config.creepAngleDegrees

instance (config : PhysicsConfig) (s : SecondHandState) : Decidable (InBand config s) := by
  unfold InBand; infer_instance

/-- Every single `advance` step lands in the band, whatever the input state:
each branch writes the base angle plus one of `overshootDegrees`,
`recoilDegrees`, `0`, or a clamped fraction of `creepAngleDegrees`. -/
theorem advance_inBand (config : PhysicsConfig) (hv : config.Valid)
    (t : ClockTime) (s : SecondHandState) :
    InBand config (advance config t s) := by
  obtain ⟨ho, hr, hca⟩ := hv
  have hminr : min config.recoilDegrees 0 ≤ config.recoilDegrees :=
    min_le_left _ _
  have hmin0 : min config.recoilDegrees 0 ≤ 0 := min_le_right _ _
  have hmaxo : config.overshootDegrees ≤
      max config.overshootDegrees config.creepAngleDegrees := le_max_left _ _
  have hmaxc : config.creepAngleDegrees ≤
      max config.overshootDegrees config.creepAngleDegrees := le_max_right _ _
  have hclamp0 : (0 : ℚ) ≤ max 0 (min 1 ((config.creepDurationMs -
      (1000 - (t.milliseconds : ℚ))) / config.creepDurationMs)) := le_max_left _ _
  have hclamp1 : max 0 (min 1 ((config.creepDurationMs -
      (1000 - (t.milliseconds : ℚ))) / config.creepDurationMs)) ≤ 1 :=
    max_le (by norm_num) (min_le_left _ _)
  have hcreep0 : (0 : ℚ) ≤ max 0 (min 1 ((config.creepDurationMs -
      (1000 - (t.milliseconds : ℚ))) / config.creepDurationMs)) *
      config.creepAngleDegrees := mul_nonneg hclamp0 hca
  have hcreep1 : max 0 (min 1 ((config.creepDurationMs -
      (1000 - (t.milliseconds : ℚ))) / config.creepDurationMs)) *
      config.creepAngleDegrees ≤ config.creepAngleDegrees :=
    mul_le_of_le_one_left hca hclamp1
  by_cases htick : (t.seconds : ℤ) ≠ s.lastSystemSecond
  · rw [advance_tick config t s htick]
    exact ⟨by dsimp; linarith, by dsimp; linarith⟩
  · push_neg at htick
    cases hp : s.secondHandAnimationPhase
    · -- SETTLED
      by_cases hw : 1000 - (t.milliseconds : ℚ) ≤ config.creepDurationMs
      · by_cases hpos : 0 ≤ 1000 - (t.milliseconds : ℚ)
        · rw [advance_settled_near config t s htick hp hw hpos]
          exact ⟨by dsimp; linarith, by dsimp; linarith⟩
        · rw [advance_settled_enter_revert config t s htick hp hw (not_le.mp hpos)]
          exact ⟨by dsimp; linarith, by dsimp; linarith⟩
      · rw [advance_settled_far config t s htick hp (not_le.mp hw)]
        exact ⟨by dsimp; linarith, by dsimp; linarith⟩
    · -- CREEPING
      by_cases hw : 1000 - (t.milliseconds : ℚ) ≤ config.creepDurationMs
      · by_cases hpos : 0 ≤ 1000 - (t.milliseconds : ℚ)
        · rw [advance_creeping_stay config t s htick hp hw hpos]
          exact ⟨by dsimp; linarith, by dsimp; linarith⟩
        · rw [advance_creeping_revert config t s htick hp (Or.inr (not_le.mp hpos))]
          exact ⟨by dsimp; linarith, by dsimp; linarith⟩
      · rw [advance_creeping_revert config t s htick hp (Or.inl (not_le.mp hw))]
        exact ⟨by dsimp; linarith, by dsimp; linarith⟩
    · -- OVERSHOOT
      rw [advance_overshoot config t s htick hp]
      exact ⟨by dsimp; linarith, by dsimp; linarith⟩
    · -- RECOIL
      rw [advance_recoil config t s htick hp]
      exact ⟨by dsimp; linarith, by dsimp; linarith⟩

theorem foldl_advance_inBand (config : PhysicsConfig) (hv : config.Valid)
    (ts : List ClockTime) :
    ∀ s : SecondHandState, InBand config s →
      InBand config (ts.foldl (fun s t => advance config t s) s) := by
  induction ts with
  | nil => exact fun s hs => hs
  | cons t ts ih =>
      intro s _
      exact ih (advance config t s) (advance_inBand config hv t s)

/-- C5: every state reachable from the initial state — by any sequence of
`advance` steps under any sequence of sampled times — keeps the visual angle
within `targetBaseAngle + [min(recoilDegrees, 0), max(overshootDegrees, creepAngleDegrees)]`,
for every physics configuration obeying the data model's sign conventions. -/
theorem C5_visual_angle_invariant (config : PhysicsConfig) (hv : config.Valid)
    (t0 : ClockTime) (ts : List ClockTime) :
    InBand config (runFrom config t0 ts) := by
  have hinit : InBand config (initialState t0) := by
    obtain ⟨ho, hr, hca⟩ := hv
    constructor
    · dsimp [initialState, InBand]
      have := min_le_right config.recoilDegrees (0 : ℚ)
      linarith
    · dsimp [initialState, InBand]
      have h1 := le_max_left config.overshootDegrees config.creepAngleDegrees
      linarith
  exact foldl_advance_inBand config hv ts (initialState t0) hinit

/-- Witness for C5: a short concrete run with the default physics stays in
the band. -/
theorem C5_witness :
    InBand defaultPhysics (runFrom defaultPhysics ⟨0, 0, 15, 0⟩
      [⟨0, 0, 15, 500⟩, ⟨0, 0, 15, 900⟩, ⟨0, 0, 16, 2⟩, ⟨0, 0, 16, 30⟩]) :=
  C5_visual_angle_invariant defaultPhysics (by norm_num [PhysicsConfig.Valid, defaultPhysics])
    ⟨0, 0, 15, 0⟩ [⟨0, 0, 15, 500⟩, ⟨0, 0, 15, 900⟩, ⟨0, 0, 16, 2⟩, ⟨0, 0, 16, 30⟩]

/-! ### The frame gate -/

/-- The throttle condition characterized: for a positive delta, the integer
`Math.round(1000/delta)` is below 50 exactly when `delta` exceeds
`2000/99` milliseconds (≈ 20.2 ms). -/
theorem jsRound_lt_50_iff (delta : ℚ) (hd : 0 < delta) :
    jsRound (1000 / delta) < 50 ↔ 2000 / 99 < delta := by
  unfold jsRound
  rw [Int.floor_lt]
  constructor
  · intro h
    have h2 : 1000 / delta < 99 / 2 := by push_cast at h; linarith
    rw [div_lt_iff₀ hd] at h2
    linarith
  · intro h
    have h2 : (1000 : ℚ) < 99 / 2 * delta := by linarith
    have h3 : 1000 / delta < 99 / 2 := (div_lt_iff₀ hd).mpr h2
    push_cast
    linarith

/-- A running `_animationLoop` call whose throttle check fails (either
`delta = 0`, giving an infinite instantaneous rate, or a rounded rate at or
above the limit) renders nothing and leaves everything but the frame handle
untouched. -/
theorem animationLoop_reject (newId : ℕ) (t : ℚ) (s : RendererState)
    (hrun : s.isRunning = true)
    (hrej : t - s.lastTimestamp ≠ 0 →
      ¬(jsRound (1000 / (t - s.lastTimestamp)) < s.maxRateHz)) :
    animationLoop newId t s =
      { state := { s with animationFrameId := some newId }
        accepted := false, rendered := false, requested := true } := by
  by_cases h0 : t - s.lastTimestamp = 0
  · simp [animationLoop, hrun, h0]
  · simp [animationLoop, hrun, h0, hrej h0]

/-- A running `_animationLoop` call whose throttle check passes updates
`lastRateHz` and `lastTimestamp` and renders when a renderer exists. -/
theorem animationLoop_accept (newId : ℕ) (t : ℚ) (s : RendererState)
    (hrun : s.isRunning = true)
    (h0 : t - s.lastTimestamp ≠ 0)
    (hacc : jsRound (1000 / (t - s.lastTimestamp)) < s.maxRateHz) :
    animationLoop newId t s =
      { state := { s with
          lastRateHz := jsRound (1000 / (t - s.lastTimestamp))
          lastTimestamp := t
          animationFrameId := some newId }
        accepted := true, rendered := s.hasRenderer, requested := true } := by
  simp [animationLoop, hrun, h0, hacc]

/-- C2 amended: for a running renderer at the default `maxRateHz = 50` and a
non-negative delta, a call with `t − lastTimestamp ≤ 2000/99` (≈ 20.2 ms —
note this is more than the spec's `1000/maxRateHz = 20 ms`) is rejected with
no mutation of the gate state and no render, and a call with
`t − lastTimestamp > 2000/99` is accepted, setting `lastTimestamp = t`.  In
particular 5 ms after an accepted frame is rejected. -/
theorem C2_frameGate_threshold (newId : ℕ) (t : ℚ) (s : RendererState)
    (hrun : s.isRunning = true) (hmax : s.maxRateHz = 50)
    (hd : 0 ≤ t - s.lastTimestamp) :
    (t - s.lastTimestamp ≤ 2000 / 99 →
      animationLoop newId t s =
        { state := { s with animationFrameId := some newId }
          accepted := false, rendered := false, requested := true }) ∧
    (2000 / 99 < t - s.lastTimestamp →
      animationLoop newId t s =
        { state := { s with
            lastRateHz := jsRound (1000 / (t - s.lastTimestamp))
            lastTimestamp := t
            animationFrameId := some newId }
          accepted := true, rendered := s.hasRenderer, requested := true }) := by
  constructor
  · intro hle
    apply animationLoop_reject newId t s hrun
    intro h0
    have hdpos : 0 < t - s.lastTimestamp := lt_of_le_of_ne hd (Ne.symm h0)
    rw [hmax]
    intro hlt
    exact absurd ((jsRound_lt_50_iff _ hdpos).mp hlt) (not_lt.mpr hle)
  · intro hlt
    have hdpos : 0 < t - s.lastTimestamp := lt_trans (by norm_num) hlt
    apply animationLoop_accept newId t s hrun (ne_of_gt hdpos)
    rw [hmax]
    exact (jsRound_lt_50_iff _ hdpos).mpr hlt

/-- A running renderer 100 ms after start, with an accepted frame recorded at
timestamp 100. -/
def gateCexState : RendererState :=
  { isRunning := true
    animationFrameId := some 1
    lastTimestamp := 100
    lastRateHz := 50
    maxRateHz := 50
    hasRenderer := true }

/-- C2 counterexample: with the last accepted timestamp at 100 and
`maxRateHz = 50`, a call at `t = 120` has `delta = 20 = 1000/maxRateHz`, which
the claim says must be accepted (`delta` is not `< 1000/maxRateHz`) with
`lastAcceptedTimestampMs := 120`; the code computes
`Math.round(1000/20) = 50`, which is not `< 50`, so the frame is rejected and
the timestamp stays 100. -/
theorem C2_counterexample :
    (1000 : ℚ) / (gateCexState.maxRateHz : ℚ) ≤ 120 - gateCexState.lastTimestamp ∧
    (animationLoop 2 120 gateCexState).accepted = false ∧
    (animationLoop 2 120 gateCexState).state.lastTimestamp = 100 ∧
    (animationLoop 2 120 gateCexState).rendered = false := by
  have hj : jsRound ((1000 : ℚ) / (120 - gateCexState.lastTimestamp)) = 50 := by
    show jsRound ((1000 : ℚ) / (120 - 100)) = 50
    unfold jsRound
    rw [Int.floor_eq_iff]
    norm_num
  have hrej : ¬(jsRound ((1000 : ℚ) / (120 - gateCexState.lastTimestamp)) <
      gateCexState.maxRateHz) := by
    rw [hj]
    decide
  rw [animationLoop_reject 2 120 gateCexState rfl (fun _ => hrej)]
  refine ⟨?_, rfl, rfl, rfl⟩
  show (1000 : ℚ) / ((50 : ℤ) : ℚ) ≤ 120 - 100
  norm_num

/-- Witness for C2's amended theorem: 5 ms after the accepted frame at 100
the call is rejected and the gate state is unchanged. -/
theorem C2_witness :
    (animationLoop 2 105 gateCexState).accepted = false ∧
    (animationLoop 2 105 gateCexState).state.lastTimestamp = 100 ∧
    (animationLoop 2 105 gateCexState).rendered = false := by
  have h := (C2_frameGate_threshold 2 105 gateCexState rfl rfl
    (by show (0 : ℚ) ≤ 105 - 100; norm_num)).1
    (by show (105 : ℚ) - 100 ≤ 2000 / 99; norm_num)
  rw [h]
  exact ⟨rfl, rfl, rfl⟩

/-- C3 counterexample: `lastTimestamp` starts at the −1 sentinel, but the
first call at timestamp 0 has `delta = 1`, `Math.round(1000/1) = 1000`,
which is not `< 50`, so the first call is rejected — the sentinel does not
make the first delta effectively infinite. -/
theorem C3_counterexample :
    (startedRenderer 1).lastTimestamp = -1 ∧
    (animationLoop 2 0 (startedRenderer 1)).accepted = false := by
  refine ⟨rfl, ?_⟩
  have hj : jsRound ((1000 : ℚ) / (0 - (startedRenderer 1).lastTimestamp)) = 1000 := by
    show jsRound ((1000 : ℚ) / (0 - (-1))) = 1000
    unfold jsRound
    rw [Int.floor_eq_iff]
    norm_num
  have hrej : ¬(jsRound ((1000 : ℚ) / (0 - (startedRenderer 1).lastTimestamp)) <
      (startedRenderer 1).maxRateHz) := by
    rw [hj]
    decide
  rw [animationLoop_reject 2 0 (startedRenderer 1) rfl (fun _ => hrej)]

/-- C3 amended: the first `_animationLoop` call after start (sentinel
`lastTimestamp = −1`) is accepted exactly when its timestamp exceeds
`1901/99` ms (≈ 19.2): small first timestamps are rejected, so the first call
is not always accepted. -/
theorem C3_first_call_accept_iff (frameId newId : ℕ) (t : ℚ) (h : 0 ≤ t) :
    (animationLoop newId t (startedRenderer frameId)).accepted = true ↔
      1901 / 99 < t := by
  have hd : 0 < t - (startedRenderer frameId).lastTimestamp := by
    show 0 < t - (-1 : ℚ)
    linarith
  have hdelta : t - (startedRenderer frameId).lastTimestamp = t + 1 := by
    show t - (-1 : ℚ) = t + 1
    ring
  have hiff := jsRound_lt_50_iff (t - (startedRenderer frameId).lastTimestamp) hd
  by_cases hacc : jsRound ((1000 : ℚ) / (t - (startedRenderer frameId).lastTimestamp)) < 50
  · rw [animationLoop_accept newId t (startedRenderer frameId) rfl (ne_of_gt hd) hacc]
    have h2 := hiff.mp hacc
    rw [hdelta] at h2
    simp only [true_iff]
    linarith
  · rw [animationLoop_reject newId t (startedRenderer frameId) rfl (fun _ => hacc)]
    have h2 : ¬(2000 / 99 < t - (startedRenderer frameId).lastTimestamp) :=
      fun hh => hacc (hiff.mpr hh)
    rw [hdelta] at h2
    simp only [Bool.false_eq_true, false_iff]
    intro hh
    exact h2 (by linarith)

/-- Witness for C3's amended theorem: the first call at timestamp 20 is
accepted (20 > 1901/99 ≈ 19.2). -/
theorem C3_witness :
    (animationLoop 2 20 (startedRenderer 1)).accepted = true :=
  (C3_first_call_accept_iff 1 2 20 (by norm_num)).mpr (by norm_num)

/-! ### Lifecycle: destroy -/

/-- C9: `destroy()` on a running renderer with a pending frame handle clears
the running flag and cancels the handle, and afterwards every scheduler
callback — at any timestamp, any number of times — returns immediately:
it mutates no state, renders nothing and requests no further frame, so no
recurring callback survives teardown. -/
theorem C9_destroy_halts (s : RendererState) (frameId : ℕ)
    (hrun : s.isRunning = true) (hid : s.animationFrameId = some frameId)
    (hfid : frameId ≠ 0) :
    (destroy s).state.isRunning = false ∧
    (destroy s).cancelled = true ∧
    (∀ (newId : ℕ) (t : ℚ),
      animationLoop newId t (destroy s).state =
        { state := (destroy s).state, accepted := false, rendered := false,
          requested := false }) ∧
    (∀ l : List (ℕ × ℚ),
      l.foldl (fun st p => (animationLoop p.1 p.2 st).state) (destroy s).state =
        (destroy s).state) := by
  have hd : destroy s =
      { state := { s with isRunning := false, hasRenderer := false }
        cancelled := true } := by
    unfold destroy
    rw [if_neg (by simp [hrun]), hid]
    simp [hfid]
  have hstop : ∀ (newId : ℕ) (t : ℚ),
      animationLoop newId t (destroy s).state =
        { state := (destroy s).state, accepted := false, rendered := false,
          requested := false } := by
    intro newId t
    rw [hd]
    unfold animationLoop
    rw [if_pos rfl]
  refine ⟨by rw [hd], by rw [hd], hstop, ?_⟩
  intro l
  induction l with
  | nil => rfl
  | cons p l ih =>
      rw [List.foldl_cons, hstop p.1 p.2]
      exact ih

/-- Witness for C9 on a freshly started renderer. -/
theorem C9_witness :
    (destroy (startedRenderer 1)).state.isRunning = false ∧
    (destroy (startedRenderer 1)).cancelled = true ∧
    (animationLoop 5 1000 (destroy (startedRenderer 1)).state).rendered = false ∧
    List.foldl (fun st p => (animationLoop p.1 p.2 st).state)
      (destroy (startedRenderer 1)).state [(6, 1020), (7, 1040)] =
      (destroy (startedRenderer 1)).state := by
  have h := C9_destroy_halts (startedRenderer 1) 1 rfl rfl (by decide)
  exact ⟨h.1, h.2.1, by rw [h.2.2.1 5 1000], h.2.2.2 [(6, 1020), (7, 1040)]⟩

/-! ### The public constructor -/

/-- C10: the constructor throws exactly when the target is not an
`HTMLElement`; any `_init` failure — worker-related or not — is caught,
`destroy()` is invoked and an error message is shown in the target element
instead of the exception propagating; a successful `_init` shows nothing. -/
theorem C10_ctor_error_handling (b : Bool) (r : Except InitError Unit) :
    (analogueClockCtor b r = Except.error () ↔ b = false) ∧
    (b = true → ∀ e : InitError, r = Except.error e →
      analogueClockCtor b r = Except.ok
        { destroyCalled := true
          errorShown := some (if e.mentionsWorker then ErrorDisplay.workerNotSupported
            else ErrorDisplay.genericInit) }) ∧
    (b = true → r = Except.ok () →
      analogueClockCtor b r = Except.ok { destroyCalled := false, errorShown := none }) := by
  cases b <;> rcases r with ⟨⟩ | e <;> simp [analogueClockCtor]

/-- Witness for C10: a caught worker-support failure shows the
worker-specific message after calling destroy. -/
theorem C10_witness :
    analogueClockCtor true (Except.error ⟨true⟩) =
      Except.ok
        { destroyCalled := true
          errorShown := some ErrorDisplay.workerNotSupported } :=
  (C10_ctor_error_handling true (Except.error ⟨true⟩)).2.1 rfl ⟨true⟩ rfl

end Clock
